import Mathlib

/-!
Verification of the Assessment Metrics Engine of the coach-platform
repository: a shallow embedding of `calculateBMI`, `calculateFMSTotal` and
`getFMSRiskLevel` from `apps/web/src/lib/utils.ts`, of the assessment
wizard's inline FMS risk display and of the `handleSubmit` persistence of
FMS scores from `apps/web/src/app/clients/[id]/page.tsx`, together with
theorems settling the specified properties.

JavaScript `number` values are modelled as extended rationals (`JSNum`):
a rational for finite values, plus `inf`, `negInf` and `nan` so that
division by zero behaves as in JavaScript. `toFixed(1)` followed by
`Number(...)` is modelled as rounding to one decimal place with ties going
to the larger candidate, as the ECMAScript `toFixed` specification
prescribes. All FMS sub-scores are integers in the user interface, so the
FMS record is embedded over `ℤ`.
-/

/-- Model of a JavaScript `number`, idealised: finite values are exact rationals. -/
inductive JSNum where
  | num : ℚ → JSNum
  | inf : JSNum
  | negInf : JSNum
  | nan : JSNum
deriving DecidableEq, Repr

/-- JavaScript division `a / b` on finite operands: division by (positive)
zero yields signed infinity, `0 / 0` yields `nan`. -/
def jsDiv (a b : ℚ) : JSNum :=
  if b = 0 then
    if 0 < a then JSNum.inf
    else if a < 0 then JSNum.negInf
    else JSNum.nan
  else JSNum.num (a / b)

/-- Rounding to one decimal place, ties to the larger candidate, as the
ECMAScript `toFixed` specification prescribes for exact inputs. -/
def roundTo1 (q : ℚ) : ℚ := (round (q * 10) : ℤ) / 10

/-- The net effect of `Number(x.toFixed(1))`: finite values are rounded to
one decimal place; `Infinity`, `-Infinity` and `NaN` round-trip through
their string forms unchanged. -/
def toFixed1 : JSNum → JSNum
  | JSNum.num q => JSNum.num (roundTo1 q)
  | JSNum.inf => JSNum.inf
  | JSNum.negInf => JSNum.negInf
  | JSNum.nan => JSNum.nan

/-- Embedding of `calculateBMI` from `apps/web/src/lib/utils.ts`:
`const heightM = heightCm / 100; return Number((weightKg / (heightM * heightM)).toFixed(1));` -/
def calculateBMI (weightKg heightCm : ℚ) : JSNum :=
  let heightM := heightCm / 100
  toFixed1 (jsDiv weightKg (heightM * heightM))

/-- The seven FMS sub-scores, in the field order of the record type of
`calculateFMSTotal` in `apps/web/src/lib/utils.ts` (which is also the
insertion order of the wizard's `fmsScores` state object). -/
structure FMSScores where
  deep_squat : ℤ
  hurdle_step : ℤ
  inline_lunge : ℤ
  shoulder_mobility : ℤ
  active_straight_leg_raise : ℤ
  trunk_stability_pushup : ℤ
  rotary_stability : ℤ
deriving DecidableEq, Repr

/-- Embedding of `calculateFMSTotal` from `apps/web/src/lib/utils.ts`:
`Object.values(scores).reduce((sum, score) => sum + score, 0)`, the values
being enumerated in insertion order. -/
def calculateFMSTotal (scores : FMSScores) : ℤ :=
  [scores.deep_squat, scores.hurdle_step, scores.inline_lunge,
   scores.shoulder_mobility, scores.active_straight_leg_raise,
   scores.trunk_stability_pushup, scores.rotary_stability].foldl (· + ·) 0

/-- The three risk bands of `getFMSRiskLevel`. -/
inductive RiskLevel where
  | low : RiskLevel
  | moderate : RiskLevel
  | high : RiskLevel
deriving DecidableEq, Repr

/-- The record returned by `getFMSRiskLevel`. -/
structure RiskInfo where
  level : RiskLevel
  label : String
  color : String
deriving DecidableEq, Repr

/-- Embedding of `getFMSRiskLevel` from `apps/web/src/lib/utils.ts`: thresholds
`totalScore >= 15` for low and `totalScore >= 12` for moderate. -/
def getFMSRiskLevel (totalScore : ℤ) : RiskInfo :=
  if totalScore ≥ 15 then
    { level := RiskLevel.low, label := "Low Risk", color := "text-green-600" }
  else if totalScore ≥ 12 then
    { level := RiskLevel.moderate, label := "Moderate Risk", color := "text-yellow-600" }
  else
    { level := RiskLevel.high, label := "High Risk", color := "text-red-600" }

/-- The colour class chosen inline by the assessment wizard's FMS step in
`apps/web/src/app/clients/[id]/page.tsx`: `total >= 14` green,
`total >= 12` yellow, otherwise red. -/
def inlineRiskColor (total : ℤ) : String :=
  if total ≥ 14 then "text-green-600"
  else if total ≥ 12 then "text-yellow-600"
  else "text-red-600"

/-- The risk caption chosen inline by the assessment wizard's FMS step in
`apps/web/src/app/clients/[id]/page.tsx`: `total >= 14` low,
`total >= 12` moderate, otherwise higher risk. -/
def inlineRiskLabel (total : ℤ) : String :=
  if total ≥ 14 then "Low injury risk"
  else if total ≥ 12 then "Moderate injury risk"
  else "Higher injury risk - consider corrective exercises"

/-- The `fms_scores` object persisted by `handleSubmit` in
`apps/web/src/app/clients/[id]/page.tsx`: the seven sub-score fields plus a
`total_score` field. -/
structure StoredFMSScores where
  deep_squat : ℤ
  hurdle_step : ℤ
  inline_lunge : ℤ
  shoulder_mobility : ℤ
  active_straight_leg_raise : ℤ
  trunk_stability_pushup : ℤ
  rotary_stability : ℤ
  total_score : ℤ
deriving DecidableEq, Repr

/-- Embedding of the construction, by `handleSubmit`, of the persisted `fms_scores` object:
`\x7b ...fmsScores, total_score: calculateFMSTotal(fmsScores) }` — the spread
copies the seven sub-score fields and `total_score` is added. -/
def submittedFMSScores (fmsScores : FMSScores) : StoredFMSScores :=
  { deep_squat := fmsScores.deep_squat
    hurdle_step := fmsScores.hurdle_step
    inline_lunge := fmsScores.inline_lunge
    shoulder_mobility := fmsScores.shoulder_mobility
    active_straight_leg_raise := fmsScores.active_straight_leg_raise
    trunk_stability_pushup := fmsScores.trunk_stability_pushup
    rotary_stability := fmsScores.rotary_stability
    total_score := calculateFMSTotal fmsScores }

/-- The seven sub-score fields of a persisted `fms_scores` object, read
back as an FMS record. -/
def subScores (r : StoredFMSScores) : FMSScores :=
  { deep_squat := r.deep_squat
    hurdle_step := r.hurdle_step
    inline_lunge := r.inline_lunge
    shoulder_mobility := r.shoulder_mobility
    active_straight_leg_raise := r.active_straight_leg_raise
    trunk_stability_pushup := r.trunk_stability_pushup
    rotary_stability := r.rotary_stability }

/-- An FMS record is valid when each of the seven sub-scores lies in the
integer range `[0, 3]`. -/
def validFMSScores (s : FMSScores) : Prop :=
  (0 ≤ s.deep_squat ∧ s.deep_squat ≤ 3) ∧
  (0 ≤ s.hurdle_step ∧ s.hurdle_step ≤ 3) ∧
  (0 ≤ s.inline_lunge ∧ s.inline_lunge ≤ 3) ∧
  (0 ≤ s.shoulder_mobility ∧ s.shoulder_mobility ≤ 3) ∧
  (0 ≤ s.active_straight_leg_raise ∧ s.active_straight_leg_raise ≤ 3) ∧
  (0 ≤ s.trunk_stability_pushup ∧ s.trunk_stability_pushup ≤ 3) ∧
  (0 ≤ s.rotary_stability ∧ s.rotary_stability ≤ 3)

instance (s : FMSScores) : Decidable (validFMSScores s) := by
  unfold validFMSScores; infer_instance

/-- The all-twos FMS record (the wizard's initial state). -/
def allTwos : FMSScores :=
  { deep_squat := 2, hurdle_step := 2, inline_lunge := 2,
    shoulder_mobility := 2, active_straight_leg_raise := 2,
    trunk_stability_pushup := 2, rotary_stability := 2 }

/-- The total is the plain sum of the seven fields. -/
lemma calculateFMSTotal_eq_sum (s : FMSScores) :
    calculateFMSTotal s =
      s.deep_squat + s.hurdle_step + s.inline_lunge + s.shoulder_mobility +
      s.active_straight_leg_raise + s.trunk_stability_pushup +
      s.rotary_stability := by
  simp [calculateFMSTotal]

/-- C1: for every integer total in [0, 21], `getFMSRiskLevel` returns the
band `low` when the total is at least 15, `moderate` when it lies in
[12, 15), and `high` when it is below 12; in particular 21 and 15 map to
`low`, 12 to `moderate` and 11 to `high`. -/
theorem getFMSRiskLevel_bands (t : ℤ) (h0 : 0 ≤ t) (h21 : t ≤ 21) :
    ((15 ≤ t → (getFMSRiskLevel t).level = RiskLevel.low) ∧
     (12 ≤ t → t < 15 → (getFMSRiskLevel t).level = RiskLevel.moderate) ∧
     (t < 12 → (getFMSRiskLevel t).level = RiskLevel.high)) ∧
    (getFMSRiskLevel 21).level = RiskLevel.low ∧
    (getFMSRiskLevel 15).level = RiskLevel.low ∧
    (getFMSRiskLevel 12).level = RiskLevel.moderate ∧
    (getFMSRiskLevel 11).level = RiskLevel.high := by
  refine ⟨⟨?_, ?_, ?_⟩, by decide, by decide, by decide, by decide⟩
  · intro h
    unfold getFMSRiskLevel
    rw [if_pos (by omega : t ≥ 15)]
  · intro h1 h2
    unfold getFMSRiskLevel
    rw [if_neg (by omega : ¬ t ≥ 15), if_pos (by omega : t ≥ 12)]
  · intro h
    unfold getFMSRiskLevel
    rw [if_neg (by omega : ¬ t ≥ 15), if_neg (by omega : ¬ t ≥ 12)]

/-- C1 witness: the band theorem applied at the concrete total 13. -/
theorem getFMSRiskLevel_bands_witness :
    (getFMSRiskLevel 13).level = RiskLevel.moderate :=
  (getFMSRiskLevel_bands 13 (by decide) (by decide)).1.2.1 (by decide) (by decide)

/-- C2 counterexample: `calculateBMI(70, 0)` does not fail with an
`InvalidMeasurement` error; it returns `Infinity` (JavaScript division of a
positive weight by zero). -/
theorem calculateBMI_zero_height_inf : calculateBMI 70 0 = JSNum.inf := by
  simp [calculateBMI, jsDiv, toFixed1]

/-- C2 amended: `calculateBMI` performs no input validation; for every
positive weight and zero height it returns `Infinity` rather than signalling
any error. -/
theorem calculateBMI_zero_height_no_error (w : ℚ) (hw : 0 < w) :
    calculateBMI w 0 = JSNum.inf := by
  norm_num [calculateBMI, jsDiv, toFixed1, hw]

/-- C2 amended witness: the no-validation theorem applied at weight 80. -/
theorem calculateBMI_zero_height_no_error_witness :
    calculateBMI 80 0 = JSNum.inf :=
  calculateBMI_zero_height_no_error 80 (by norm_num)

/-- C3 counterexample: with one sub-score equal to 4 (the rest 2),
`calculateFMSTotal` does not fail with an `InvalidScore` error; it returns
the number 16. -/
theorem calculateFMSTotal_four_sixteen :
    calculateFMSTotal ⟨2, 2, 2, 2, 2, 2, 4⟩ = 16 := by decide

/-- C3 amended: `calculateFMSTotal` performs no range validation; even for a
record with a sub-score outside [0, 3] it returns the plain sum of the seven
fields rather than signalling any error. -/
theorem calculateFMSTotal_no_validation (s : FMSScores)
    (h : ¬ validFMSScores s) :
    calculateFMSTotal s =
      s.deep_squat + s.hurdle_step + s.inline_lunge + s.shoulder_mobility +
      s.active_straight_leg_raise + s.trunk_stability_pushup +
      s.rotary_stability :=
  calculateFMSTotal_eq_sum s

/-- C3 amended witness: the no-validation theorem applied at the record with
one sub-score 4 and the rest 2. -/
theorem calculateFMSTotal_no_validation_witness :
    calculateFMSTotal ⟨2, 2, 2, 2, 2, 2, 4⟩ = 2 + 2 + 2 + 2 + 2 + 2 + 4 :=
  calculateFMSTotal_no_validation ⟨2, 2, 2, 2, 2, 2, 4⟩ (by decide)

/-- C4: for every positive weight and positive height, `calculateBMI`
returns the weight divided by the squared height in metres, rounded to one
decimal place; in particular `calculateBMI(70, 170)` is 24.2. -/
theorem calculateBMI_formula (w h : ℚ) (hw : 0 < w) (hh : 0 < h) :
    calculateBMI w h = JSNum.num (roundTo1 (w / (h / 100) ^ 2)) ∧
    calculateBMI 70 170 = JSNum.num (242 / 10) := by
  constructor
  · have hd : h / 100 * (h / 100) ≠ 0 := by positivity
    simp only [calculateBMI, jsDiv, toFixed1, pow_two]
    rw [if_neg hd]
  · rw [calculateBMI]
    norm_num [jsDiv, toFixed1, roundTo1, round_eq]

/-- C4 witness: the formula theorem applied at weight 70, height 170. -/
theorem calculateBMI_formula_witness :
    calculateBMI 70 170 = JSNum.num (242 / 10) :=
  (calculateBMI_formula 70 170 (by norm_num) (by norm_num)).2

/-- C5: for every FMS record with all seven sub-scores in [0, 3],
`calculateFMSTotal` returns the sum of the seven fields, that sum lies in
[0, 21], and the all-twos record yields 14. -/
theorem calculateFMSTotal_valid_sum (s : FMSScores) (h : validFMSScores s) :
    calculateFMSTotal s =
      s.deep_squat + s.hurdle_step + s.inline_lunge + s.shoulder_mobility +
      s.active_straight_leg_raise + s.trunk_stability_pushup +
      s.rotary_stability ∧
    0 ≤ calculateFMSTotal s ∧ calculateFMSTotal s ≤ 21 ∧
    calculateFMSTotal allTwos = 14 := by
  obtain ⟨h1, h2, h3, h4, h5, h6, h7⟩ := h
  refine ⟨calculateFMSTotal_eq_sum s, ?_, ?_, by decide⟩
  · rw [calculateFMSTotal_eq_sum]; omega
  · rw [calculateFMSTotal_eq_sum]; omega

/-- C5 witness: the valid-sum theorem applied at the all-twos record. -/
theorem calculateFMSTotal_valid_sum_witness :
    0 ≤ calculateFMSTotal allTwos ∧ calculateFMSTotal allTwos = 14 :=
  ⟨(calculateFMSTotal_valid_sum allTwos (by decide)).2.1,
   (calculateFMSTotal_valid_sum allTwos (by decide)).2.2.2⟩

/-- C6: the shared utility classifies a total as low risk exactly when it is
at least 15 (moderate on [12, 15)), while the wizard's inline display treats
a total as low risk exactly when it is at least 14 (moderate on [12, 14)),
and the two rules disagree at the total 14. -/
theorem fms_thresholds_disagree :
    (∀ t : ℤ, (getFMSRiskLevel t).level = RiskLevel.low ↔ 15 ≤ t) ∧
    (∀ t : ℤ, (getFMSRiskLevel t).level = RiskLevel.moderate ↔
      12 ≤ t ∧ t < 15) ∧
    (∀ t : ℤ, inlineRiskLabel t = "Low injury risk" ↔ 14 ≤ t) ∧
    (∀ t : ℤ, inlineRiskLabel t = "Moderate injury risk" ↔
      12 ≤ t ∧ t < 14) ∧
    (∀ t : ℤ, inlineRiskColor t = "text-green-600" ↔ 14 ≤ t) ∧
    (getFMSRiskLevel 14).level = RiskLevel.moderate ∧
    inlineRiskLabel 14 = "Low injury risk" ∧
    inlineRiskColor 14 = "text-green-600" := by
  refine ⟨?_, ?_, ?_, ?_, ?_, by decide, by decide, by decide⟩
  · intro t
    unfold getFMSRiskLevel
    split_ifs <;> simp <;> omega
  · intro t
    unfold getFMSRiskLevel
    split_ifs <;> simp <;> omega
  · intro t
    unfold inlineRiskLabel
    split_ifs <;> simp <;> omega
  · intro t
    unfold inlineRiskLabel
    split_ifs <;> simp <;> omega
  · intro t
    unfold inlineRiskColor
    split_ifs <;> simp <;> omega

/-- C7: for every valid FMS record, the total lies in [0, 21] and
`getFMSRiskLevel` of that total returns one of the three bands low,
moderate, high (the function is total and never fails). -/
theorem getFMSRiskLevel_total_on_valid (s : FMSScores)
    (h : validFMSScores s) :
    0 ≤ calculateFMSTotal s ∧ calculateFMSTotal s ≤ 21 ∧
    ((getFMSRiskLevel (calculateFMSTotal s)).level = RiskLevel.low ∨
     (getFMSRiskLevel (calculateFMSTotal s)).level = RiskLevel.moderate ∨
     (getFMSRiskLevel (calculateFMSTotal s)).level = RiskLevel.high) := by
  obtain ⟨h1, h2, h3, h4, h5, h6, h7⟩ := h
  rw [calculateFMSTotal_eq_sum]
  refine ⟨by omega, by omega, ?_⟩
  unfold getFMSRiskLevel
  split_ifs <;> simp

/-- C7 witness: the totality theorem applied at the all-twos record. -/
theorem getFMSRiskLevel_total_on_valid_witness :
    (getFMSRiskLevel (calculateFMSTotal allTwos)).level = RiskLevel.low ∨
    (getFMSRiskLevel (calculateFMSTotal allTwos)).level = RiskLevel.moderate ∨
    (getFMSRiskLevel (calculateFMSTotal allTwos)).level = RiskLevel.high :=
  (getFMSRiskLevel_total_on_valid allTwos (by decide)).2.2

/-- C8: the three engine operations are deterministic and stateless: two
invocations with identical arguments return identical outputs. -/
theorem engine_deterministic (w h w2 h2 : ℚ) (s s2 : FMSScores) (t t2 : ℤ)
    (hw : w = w2) (hh : h = h2) (hs : s = s2) (ht : t = t2) :
    calculateBMI w h = calculateBMI w2 h2 ∧
    calculateFMSTotal s = calculateFMSTotal s2 ∧
    getFMSRiskLevel t = getFMSRiskLevel t2 := by
  subst hw; subst hh; subst hs; subst ht
  exact ⟨rfl, rfl, rfl⟩

/-- C8 witness: the determinism theorem applied at concrete arguments. -/
theorem engine_deterministic_witness :
    calculateBMI 70 170 = calculateBMI 70 170 ∧
    calculateFMSTotal allTwos = calculateFMSTotal allTwos ∧
    getFMSRiskLevel 14 = getFMSRiskLevel 14 :=
  engine_deterministic 70 170 70 170 allTwos allTwos 14 14 rfl rfl rfl rfl

/-- C9: for every weight and nonzero height, `calculateBMI` at the negated
height equals `calculateBMI` at the height (the height is squared, so its
sign is ignored), and the result is a finite number, not an error. -/
theorem calculateBMI_neg_height (w h : ℚ) (hh : h ≠ 0) :
    calculateBMI w (-h) = calculateBMI w h ∧
    ∃ q : ℚ, calculateBMI w h = JSNum.num q := by
  have h100 : h / 100 ≠ 0 := div_ne_zero hh (by norm_num)
  have hd : h / 100 * (h / 100) ≠ 0 := mul_ne_zero h100 h100
  constructor
  · have key : -h / 100 * (-h / 100) = h / 100 * (h / 100) := by ring
    simp only [calculateBMI]
    rw [key]
  · refine ⟨roundTo1 (w / (h / 100 * (h / 100))), ?_⟩
    simp only [calculateBMI, jsDiv, toFixed1]
    rw [if_neg hd]

/-- C9 witness: the sign-blindness theorem applied at weight 70,
height 170. -/
theorem calculateBMI_neg_height_witness :
    calculateBMI 70 (-170) = calculateBMI 70 170 :=
  (calculateBMI_neg_height 70 170 (by norm_num)).1

/-- C10: the `fms_scores` object built by the submission flow is internally
consistent: its `total_score` field equals `calculateFMSTotal` applied to
the seven sub-score fields of that same object. -/
theorem submitted_total_consistent (s : FMSScores) :
    (submittedFMSScores s).total_score =
      calculateFMSTotal (subScores (submittedFMSScores s)) := rfl
